import Mathlib

/-!
# AgenticAIOps: checking the specification against the source

Shallow embedding of the parts of the AgenticAIOps repository that the
specification talks about: the frontend widgets and hooks (TypeScript,
under frontend/), and the backend agent components (ReAct loop, Gateway
client, Budget Tracker, Constraint Negotiator) whose Python sources are
not in the repository snapshot and are therefore modelled from the
specification and the README excerpts.

Numbers are embedded as rationals; TypeScript string unions as inductive
types or string predicates, keeping the literal strings of the source.
-/

namespace AgenticAIOps

/-! ## CostCalculator (components/widgets/CostCalculator.tsx) -/

/-- The GPU on-demand hourly rate literal 0.526 of CostCalculator.tsx. -/
def onDemandRate : ℚ := 526 / 1000

/-- CostCalculator.tsx calculateCost: baseCost = estimatedTime * 0.526;
if useSpot then baseCost *= 0.3; if useCPU then baseCost *= 0.15. -/
def calculateCost (estimatedTime : ℚ) (useSpot useCPU : Bool) : ℚ :=
  let base0 := estimatedTime * onDemandRate
  let base1 := if useSpot then base0 * (3 / 10) else base0
  let base2 := if useCPU then base1 * (15 / 100) else base1
  base2

/-- CostCalculator.tsx savings: estimatedTime * 0.526 - calculateCost(). -/
def costSavings (estimatedTime : ℚ) (useSpot useCPU : Bool) : ℚ :=
  estimatedTime * onDemandRate - calculateCost estimatedTime useSpot useCPU

/-! ## BudgetDisplay (components/sidebar/BudgetDisplay.tsx) -/

/-- The rendered pieces of BudgetDisplay: the percent label, the Progress
value, the spent/limit pair, the remaining-amount label, and whether the
savings row is shown. -/
structure BudgetRender where
  percentLabel : ℚ
  progressValue : ℚ
  spentShown : ℚ
  limitShown : ℚ
  leftLabel : ℚ
  showSavings : Bool
deriving DecidableEq

/-- BudgetDisplay.tsx body: percentUsed = (spent / limit) * 100, the
remaining label is limit - spent, and the savings row shows iff
savings > 0. -/
def budgetDisplay (spent limit savings : ℚ) : BudgetRender :=
  let percent := spent / limit * 100
  ⟨percent, percent, spent, limit, limit - spent, decide (0 < savings)⟩

/-- BudgetDisplay.tsx default props: spent = 0, limit = 50, savings = 0;
with only spent and savings supplied the limit defaults to 50. -/
def budgetDisplayDefaultLimit (spent savings : ℚ) : BudgetRender :=
  budgetDisplay spent 50 savings

/-! ## Job type (frontend/types/jobs.ts) and client status handling -/

/-- The status union of the Job interface in frontend/types/jobs.ts:
status is one of the literals queued, training, completed, failed. -/
inductive JobStatus
  | queued
  | training
  | completed
  | failed
deriving DecidableEq

/-- The literal string of each JobStatus constructor, as written in
frontend/types/jobs.ts. -/
def JobStatus.toStr : JobStatus → String
  | .queued => "queued"
  | .training => "training"
  | .completed => "completed"
  | .failed => "failed"

/-- The four status strings of the Job union in frontend/types/jobs.ts. -/
def jobStatusStrings : List String := ["queued", "training", "completed", "failed"]

/-- The Job status set as the specification states it (spec section 3,
Job entry): queued, running, completed, failed. Written from the spec
words, for comparison with jobStatusStrings taken from the source. -/
def specJobStatusStrings : List String := ["queued", "running", "completed", "failed"]

/-- The Job record of frontend/types/jobs.ts (the fields the claims
touch; config flattened to its dataset and base model). -/
structure Job where
  id : String
  name : String
  status : JobStatus
  progress : ℚ
  eta : ℚ
  cost_so_far : ℚ
  started_at : String
  base_model : String
  dataset : String
deriving DecidableEq

/-- hooks/useAgent.ts loadActiveJobs filter: keeps a job when
job.status === 'training' || job.status === 'pending'. -/
def isActiveJobStatus (s : String) : Bool := s == "training" || s == "pending"

/-- hooks/useAgent.ts jobs_launched handler: every job added by addJob is
constructed with status: 'training'. -/
def launchedJobStatus : String := "training"

/-- app/chat/page.tsx handleSendMessage: the toast fires only when
latestJob.status === 'running'. -/
def toastCheckStatus : String := "running"

/-- The Job value the jobs_launched handler of useAgent.ts constructs for
one job id (status 'training', progress 0, eta 10, cost_so_far 0). -/
def launchedJob (jobId modelName startedAt : String) : Job :=
  { id := jobId
    name := if modelName == "" then jobId else modelName ++ " Training"
    status := JobStatus.training
    progress := 0
    eta := 10
    cost_so_far := 0
    started_at := startedAt
    base_model := if modelName == "" then "distilbert-base-cased" else modelName
    dataset := "DFKI-SLT/ciER" }

/-! ## SSE event dispatch (hooks/useAgent.ts sendMessage) -/

/-- The data fields of one parsed SSE event that the useAgent.ts handler
branches read (message, step, count, models, job_ids, model,
top_model). -/
structure SSEData where
  message : String
  step : String
  count : ℕ
  models : List String
  job_ids : List String
  model : String
  top_model : String
deriving DecidableEq

/-- The accumulator of the SSE read loop of useAgent.ts sendMessage:
agentResponse, currentThinkingSteps, and the job ids passed to addJob. -/
structure StreamAccum where
  agentResponse : String
  thinkingSteps : List String
  launchedJobIds : List String
deriving DecidableEq

/-- The if/else chain on eventType in useAgent.ts sendMessage. Every
branch updates the accumulator exactly as the source does; an event type
matching no branch leaves the accumulator unchanged. -/
def handleSSEEvent (st : StreamAccum) (eventType : String) (d : SSEData) : StreamAccum :=
  if eventType == "conversational_response" then
    { st with agentResponse := st.agentResponse ++ d.message }
  else if eventType == "agent_thinking" then
    { st with thinkingSteps := st.thinkingSteps ++ [d.message] }
  else if eventType == "workflow_step" then
    { st with thinkingSteps := st.thinkingSteps ++
        [(if d.step == "" then "Processing" else d.step) ++ ": " ++ d.message] }
  else if eventType == "candidates_found" then
    { st with agentResponse := st.agentResponse ++
        "\n\nFound " ++ toString d.count ++ " model candidates:\n" ++
          String.intercalate ", " d.models }
  else if eventType == "jobs_launched" then
    { st with launchedJobIds := st.launchedJobIds ++ d.job_ids
              agentResponse := st.agentResponse ++
                "\n\nLaunched " ++ toString d.count ++ " training jobs" }
  else if eventType == "recommendations_ready" then
    { st with agentResponse := st.agentResponse ++
        "\n\nTop recommendation: " ++ d.top_model }
  else if eventType == "workflow_complete" then
    { st with agentResponse := st.agentResponse ++
        "\n\n✅ Workflow completed successfully!" }
  else st

/-- True exactly when the if/else chain of useAgent.ts has a branch for
this event type. -/
def handledEventType (t : String) : Bool :=
  t == "conversational_response" || t == "agent_thinking" || t == "workflow_step" ||
    t == "candidates_found" || t == "jobs_launched" || t == "recommendations_ready" ||
      t == "workflow_complete"

/-- The seven event-type strings the useAgent.ts consumer dispatches on. -/
def consumerEventTypes : List String :=
  ["conversational_response", "agent_thinking", "workflow_step", "candidates_found",
    "jobs_launched", "recommendations_ready", "workflow_complete"]

/-- The eight event names of the spec stream contract (spec section 4.1).
Written from the spec words, for comparison with the handled set taken
from the source. -/
def specEventTypes : List String :=
  ["reasoning-step", "tool-invoked", "tool-result", "conversational-chunk",
    "jobs-launched", "constraint-conflict", "completed", "error"]

/-! ## Conflicts and alternatives (frontend/types/agent.ts and
components/dialogs/ConstraintNegotiation.tsx) -/

/-- The Conflict interface of frontend/types/agent.ts: constraint,
required (number | string), achievable (number | string), gap (number). -/
structure AgentConflict where
  constraint : String
  required : ℚ ⊕ String
  achievable : ℚ ⊕ String
  gap : ℚ
deriving DecidableEq

/-- The field names of the Conflict interface in frontend/types/agent.ts,
in declaration order. -/
def agentConflictFields : List String := ["constraint", "required", "achievable", "gap"]

/-- The dialog-local Conflict interface of ConstraintNegotiation.tsx:
constraint, required, achievable — three string fields, no gap. -/
structure DialogConflict where
  constraint : String
  required : String
  achievable : String
deriving DecidableEq

/-- The field names of the Conflict interface declared inside
ConstraintNegotiation.tsx, in declaration order. -/
def dialogConflictFields : List String := ["constraint", "required", "achievable"]

/-- The conflict field names the spec states (spec section 4.4):
constraint, required, achieved, gap. Written from the spec words, for
comparison with the field lists taken from the source. -/
def specConflictFields : List String := ["constraint", "required", "achieved", "gap"]

/-- The dialog-local Alternative interface of ConstraintNegotiation.tsx:
name, description, tradeoff — no cost field. -/
structure DialogAlternative where
  name : String
  description : String
  tradeoff : String
deriving DecidableEq

/-- The Alternative interface of frontend/types/agent.ts: name,
description, tradeoff, cost. -/
structure AltWithCost where
  name : String
  description : String
  tradeoff : String
  cost : ℚ
deriving DecidableEq

/-- One rendered alternative card of ConstraintNegotiationDialog: the
alternative together with whether the Recommended badge is rendered. -/
structure RenderedAlternative where
  alt : DialogAlternative
  recommendedBadge : Bool
deriving DecidableEq

/-- ConstraintNegotiation.tsx alternatives.map with its index: the badge
is rendered exactly on the card whose index is 0. The recursion carries
the running index of the map callback. -/
def renderAlternativesFrom (idx : ℕ) : List DialogAlternative → List RenderedAlternative
  | [] => []
  | a :: rest => ⟨a, idx == 0⟩ :: renderAlternativesFrom (idx + 1) rest

/-- The alternatives section of ConstraintNegotiationDialog: map over the
alternatives prop starting at index 0. -/
def renderAlternatives (alts : List DialogAlternative) : List RenderedAlternative :=
  renderAlternativesFrom 0 alts

/-! ## Constraint Negotiator (modelled from the spec)

The Negotiator itself is backend Python that is not in the repository
snapshot; only its frontend consumers are. It is modelled here from the
spec (section 4.4). -/

/-- Modelled from the spec: the relaxation tolerance, domain default 10%
(gateway/negotiator backend absent from src/). -/
def defaultTolerance : ℚ := 1 / 10

/-- Modelled from the spec: a named constraint with its required value
(Constraint Negotiator input; backend absent from src/). -/
structure NamedConstraint where
  name : String
  required : ℚ
deriving DecidableEq

/-- Modelled from the spec: a candidate option with its achieved value
per constraint name (Constraint Negotiator input; backend absent from
src/). A constraint name missing from the list reads as achieved 0. -/
structure CandidateOption where
  name : String
  achieved : List (String × ℚ)
deriving DecidableEq

/-- The achieved value of an option for one constraint name. -/
def achievedOf (opt : CandidateOption) (k : String) : ℚ :=
  match opt.achieved.find? (fun p => p.1 == k) with
  | some p => p.2
  | none => 0

/-- Modelled from the spec: an option fails a constraint when the
achieved value misses the required value by more than tolerance *
required (backend absent from src/). -/
def failsConstraint (tol : ℚ) (c : NamedConstraint) (achieved : ℚ) : Bool :=
  decide (tol * c.required < c.required - achieved)

/-- Modelled from the spec: the conflict the Negotiator emits for an
option, built from the first constraint the option fails — constraint
name, required, achieved, and gap = required - achieved (backend absent
from src/). none when the option fails no constraint. -/
def conflictFor (tol : ℚ) (cs : List NamedConstraint) (opt : CandidateOption) :
    Option AgentConflict :=
  match cs.find? (fun c => failsConstraint tol c (achievedOf opt c.name)) with
  | some c =>
      some ⟨c.name, Sum.inl c.required, Sum.inl (achievedOf opt c.name),
        c.required - achievedOf opt c.name⟩
  | none => none

/-- Modelled from the spec: the conflicts output of one negotiation round
— one conflict for every option that fails at least one constraint by
more than the tolerance (backend absent from src/). -/
def negotiateConflicts (tol : ℚ) (cs : List NamedConstraint)
    (opts : List CandidateOption) : List AgentConflict :=
  opts.filterMap (conflictFor tol cs)

/-- Modelled from the spec: insertion of one alternative into a list
already ordered by ascending cost (alternative ranking; backend absent
from src/). -/
def insertByCost (a : AltWithCost) : List AltWithCost → List AltWithCost
  | [] => [a]
  | b :: rest => if a.cost ≤ b.cost then a :: b :: rest else b :: insertByCost a rest

/-- Modelled from the spec: the Negotiator orders its alternatives by
ascending cost before returning them (backend absent from src/). -/
def rankAlternatives : List AltWithCost → List AltWithCost
  | [] => []
  | a :: rest => insertByCost a (rankAlternatives rest)

/-- Forgetting the cost when handing an alternative to the dialog, whose
local Alternative interface has no cost field. -/
def toDialogAlternative (a : AltWithCost) : DialogAlternative :=
  ⟨a.name, a.description, a.tradeoff⟩

/-! ## The useAgent hook state and sendMessage (hooks/useAgent.ts) -/

/-- The Message type of hooks/useAgent.ts (role, message, timestamp,
optional type tag). -/
structure ChatMessage where
  role : String
  message : String
  timestamp : String
  msgType : Option String
deriving DecidableEq

/-- The state of one useAgent hook instance: the messages list, the
isTyping flag, the activeJobs list, the session id, and the isSending
guard flag. -/
structure AgentHookState where
  messages : List ChatMessage
  isTyping : Bool
  activeJobs : List Job
  sessionId : String
  isSending : Bool
deriving DecidableEq

/-- One chat-stream response: whether fetch resolved ok and the parsed
SSE events (event type paired with its data) in stream order. -/
structure FetchResponse where
  ok : Bool
  events : List (String × SSEData)
deriving DecidableEq

/-- The SSE read loop of sendMessage: fold the event handler over the
stream, starting from the empty accumulator. -/
def processStream (events : List (String × SSEData)) : StreamAccum :=
  events.foldl (fun st e => handleSSEEvent st e.1 e.2) ⟨"", [], []⟩

/-- hooks/useAgent.ts sendMessage, with the fetch response passed in
explicitly and the wall clock passed as the timestamp string. Returns
the next hook state and the number of chat-stream requests issued.
The isSending guard returns immediately, issuing no request; otherwise
one request is issued, the user message is appended, the stream is
folded, launched jobs are added with status training, the agent message
is appended when the accumulated response is non-empty (an error message
on a failed fetch), and the finally block resets isTyping and
isSending. -/
def sendMessage (st : AgentHookState) (text now : String) (resp : FetchResponse) :
    AgentHookState × ℕ :=
  if st.isSending then (st, 0)
  else
    let st1 := { st with
      isSending := true
      messages := st.messages ++ [(⟨"user", text, now, none⟩ : ChatMessage)]
      isTyping := true }
    if resp.ok then
      let acc := processStream resp.events
      let st2 := { st1 with
        activeJobs := st1.activeJobs ++ acc.launchedJobIds.map (fun jid => launchedJob jid "" now) }
      let st3 :=
        if acc.agentResponse == "" then st2
        else { st2 with messages := st2.messages ++
          [(⟨"agent", acc.agentResponse, now, some "text"⟩ : ChatMessage)] }
      ({ st3 with isTyping := false, isSending := false }, 1)
    else
      ({ st1 with
          messages := st1.messages ++ [(⟨"agent", "Error: fetch failed", now, some "error"⟩ : ChatMessage)]
          isTyping := false
          isSending := false }, 1)

/-! ## Budget Tracker (modelled from the spec) and BudgetInfo
(frontend/types/agent.ts) -/

/-- The BudgetInfo interface of frontend/types/agent.ts (the fields the
claims touch): scope type, limit, spent, remaining. -/
structure BudgetInfo where
  id : String
  scopeType : String
  limit : ℚ
  spent : ℚ
  remaining : ℚ
deriving DecidableEq

/-- Modelled from the spec: one Budget Tracker scope holding a limit and
the spend to date (Budget Tracker backend absent from src/). -/
structure BudgetScope where
  limit : ℚ
  spent : ℚ
deriving DecidableEq

/-- Modelled from the spec: canAfford(scope, amount) — the spend so far
plus the new amount must stay within the limit (backend absent from
src/). -/
def canAfford (b : BudgetScope) (amount : ℚ) : Bool :=
  decide (b.spent + amount ≤ b.limit)

/-- Modelled from the spec: recordSpend(scope, amount) adds the amount to
the spend of the scope (backend absent from src/). -/
def recordSpend (b : BudgetScope) (amount : ℚ) : BudgetScope :=
  ⟨b.limit, b.spent + amount⟩

/-- The two scopes that exist simultaneously: global and the session of
the current turn. -/
structure BudgetState where
  globalScope : BudgetScope
  sessionScope : BudgetScope
deriving DecidableEq

/-- Modelled from the spec: the hard gate before a paid action — both the
global and the session scope must pass canAfford, and on success the
amount is recorded in both scopes; otherwise the action does not proceed
(backend absent from src/). -/
def paidAction (st : BudgetState) (amount : ℚ) : Option BudgetState :=
  if canAfford st.globalScope amount && canAfford st.sessionScope amount then
    some ⟨recordSpend st.globalScope amount, recordSpend st.sessionScope amount⟩
  else none

/-- The BudgetInfo value reported for a scope: remaining is limit minus
spent, as carried by the remaining field of frontend/types/agent.ts. -/
def budgetInfoOf (id scopeType : String) (b : BudgetScope) : BudgetInfo :=
  ⟨id, scopeType, b.limit, b.spent, b.limit - b.spent⟩

/-! ## ReAct iteration loop (modelled from the spec) -/

/-- Modelled from the spec: the iteration ceiling of the ReAct loop,
domain default 10 (react_agent.py absent from src/; the README excerpt
shows while not task_complete and iteration < MAX_REACT_ITERATIONS). -/
def MAX_REACT_ITERATIONS : ℕ := 10

/-- The outcome of one user turn: how many think-act-observe cycles ran
and whether the turn ended with the partial-results message (bound
reached without a completion signal). -/
structure TurnResult where
  iterations : ℕ
  limitHit : Bool
deriving DecidableEq

/-- Modelled from the spec: the while loop of the ReAct turn, recursing
on the remaining iteration budget (react_agent.py absent from src/).
thinkComplete i tells whether the cycle at iteration i produces the
completion signal. Budget 0 with no completion signal ends the turn with
the partial-results message. -/
def reactLoopGo (thinkComplete : ℕ → Bool) : ℕ → ℕ → TurnResult
  | 0, iter => ⟨iter, true⟩
  | rem + 1, iter =>
    if thinkComplete iter then ⟨iter + 1, false⟩
    else reactLoopGo thinkComplete rem (iter + 1)

/-- Modelled from the spec: one full user turn — run the loop from
iteration 0 with the configured ceiling (react_agent.py absent from
src/). -/
def reactTurn (thinkComplete : ℕ → Bool) : TurnResult :=
  reactLoopGo thinkComplete MAX_REACT_ITERATIONS 0

/-! ## Gateway client (modelled from the spec and the README excerpts) -/

/-- Modelled from the spec: the static _TOOL_REGISTRY of gateway_service.py
(absent from src/; the README excerpt lists the four tools and their
lambda function names). -/
def TOOL_REGISTRY : List (String × String) :=
  [("check_sagemaker_quotas", "llmops-tool-check-sagemaker-quotas"),
    ("prepare_dataset", "llmops-tool-prepare-dataset"),
    ("list_s3_datasets", "llmops-tool-list-datasets"),
    ("launch_sagemaker_training", "llmops-tool-launch-training")]

/-- The gateway id literal that selects fallback mode. -/
def fallbackGatewayId : String := "gtw-local-fallback"

/-- The normalized ToolResult shape both strategies return: success flag,
structured payload, and error detail. -/
structure ToolResult where
  success : Bool
  payload : String
  error : Option String
deriving DecidableEq

/-- Modelled from the spec: the GatewayClient record — the configured
gateway id and the mode flag fixed at construction (gateway_service.py
absent from src/). -/
structure GatewayClient where
  gateway_id : String
  fallbackMode : Bool
deriving DecidableEq

/-- Modelled from the spec: GatewayClient construction — fallback mode is
selected exactly when the configured gateway id equals
gtw-local-fallback (gateway_service.py absent from src/). -/
def mkGatewayClient (gateway_id : String) : GatewayClient :=
  ⟨gateway_id, gateway_id == fallbackGatewayId⟩

/-- A backend semantics: what the lambda function of a tool returns for a
parameter bag. Shared by both strategies, since both ultimately run the
same lambda. -/
def Backend : Type := String → List (String × String) → ToolResult

/-- Modelled from the spec: the direct (fallback) strategy — look the
tool up in the static registry and invoke its lambda directly; an
unknown tool yields a normalized error ToolResult (gateway_service.py
absent from src/). -/
def invokeDirect (backend : Backend) (toolName : String)
    (params : List (String × String)) : ToolResult :=
  match TOOL_REGISTRY.find? (fun p => p.1 == toolName) with
  | some entry => backend entry.2 params
  | none => ⟨false, "", some ("Unknown tool: " ++ toolName)⟩

/-- Modelled from the spec: the routed strategy — forward the call
through the Gateway API, whose registered tools are the same four
lambdas (the README registration excerpt registers exactly the registry
tools); an unknown tool yields the same normalized error ToolResult
(gateway_service.py absent from src/). -/
def invokeRouted (backend : Backend) (toolName : String)
    (params : List (String × String)) : ToolResult :=
  match TOOL_REGISTRY.find? (fun p => p.1 == toolName) with
  | some entry => backend entry.2 params
  | none => ⟨false, "", some ("Unknown tool: " ++ toolName)⟩

/-- Modelled from the spec: listTools — the static registry in fallback
mode, the Gateway catalogue (the same registered tools) in routed mode
(gateway_service.py absent from src/). -/
def GatewayClient.listTools (c : GatewayClient) : List String :=
  if c.fallbackMode then TOOL_REGISTRY.map (fun p => p.1)
  else TOOL_REGISTRY.map (fun p => p.1)

/-- Modelled from the spec: invoke — the single dispatch on the mode flag
lives inside the client; callers call invoke and never branch on the
mode (gateway_service.py absent from src/). -/
def GatewayClient.invoke (c : GatewayClient) (backend : Backend) (toolName : String)
    (params : List (String × String)) : ToolResult :=
  if c.fallbackMode then invokeDirect backend toolName params
  else invokeRouted backend toolName params

/-! ## Theorems -/

/-- C10: for every non-negative estimatedTime, calculateCost is at most
the on-demand base cost estimatedTime * 0.526; the spot toggle
multiplies by 0.3 and the CPU toggle by 0.15, composing multiplicatively
when both are on; enabling a discount toggle never increases the cost;
and the displayed savings is non-negative. -/
theorem calculate_cost_discounts_never_increase
    (t : ℚ) (ht : 0 ≤ t) (s c : Bool) :
    calculateCost t s c ≤ t * onDemandRate ∧
    0 ≤ costSavings t s c ∧
    calculateCost t true true = t * onDemandRate * (3 / 10) * (15 / 100) ∧
    calculateCost t true c ≤ calculateCost t false c ∧
    calculateCost t s true ≤ calculateCost t s false := by
  refine ⟨?_, ?_, ?_, ?_, ?_⟩ <;>
    rcases s <;> rcases c <;>
      simp [calculateCost, costSavings, onDemandRate] <;>
        nlinarith [ht]

/-- C10 witness: at estimatedTime 2 with both toggles on, the cost is
below the on-demand base and the savings is non-negative. -/
theorem calculate_cost_discounts_witness :
    calculateCost 2 true true ≤ 2 * onDemandRate ∧ 0 ≤ costSavings 2 true true :=
  ⟨(calculate_cost_discounts_never_increase 2 (by norm_num) true true).1,
    (calculate_cost_discounts_never_increase 2 (by norm_num) true true).2.1⟩

/-- C9: BudgetDisplay renders remaining = limit - spent and percent used
= (spent / limit) * 100, with the limit defaulting to 50; there is no
clamping, so overspending renders a negative remaining amount. -/
theorem budget_display_unclamped_formulas (spent limit savings : ℚ) :
    (budgetDisplay spent limit savings).leftLabel = limit - spent ∧
    (budgetDisplay spent limit savings).percentLabel = spent / limit * 100 ∧
    (limit < spent → (budgetDisplay spent limit savings).leftLabel < 0) ∧
    budgetDisplayDefaultLimit spent savings = budgetDisplay spent 50 savings := by
  refine ⟨rfl, rfl, ?_, rfl⟩
  intro h
  simp only [budgetDisplay]
  linarith

/-- C9 witness: with spent 60 against the default limit 50, BudgetDisplay
renders a negative remaining amount. -/
theorem budget_display_unclamped_witness :
    (50 : ℚ) < 60 ∧ (budgetDisplay 60 50 0).leftLabel < 0 :=
  ⟨by norm_num, (budget_display_unclamped_formulas 60 50 0).2.2.1 (by norm_num)⟩

/-- C4 counterexample: the client constructs jobs with status training —
a value the active-job filter accepts — and training is not in the
status set the claim states (queued, running, completed, failed). -/
theorem job_status_training_not_in_spec_set :
    (launchedJob "j1" "" "t0").status.toStr = launchedJobStatus ∧
    isActiveJobStatus launchedJobStatus = true ∧
    specJobStatusStrings.contains launchedJobStatus = false := by
  refine ⟨rfl, rfl, ?_⟩
  decide

/-- C4 amended: every Job status is drawn from the union queued,
training, completed, failed of frontend/types/jobs.ts (completed and
failed the terminal ones per the spec); among these the active-job
filter accepts exactly training, but it also accepts the string pending
and the toast check tests the string running, neither of which is in the
union; the jobs_launched handler constructs status training. -/
theorem job_status_set_corrected :
    (∀ j : Job, j.status.toStr ∈ jobStatusStrings) ∧
    (∀ s : JobStatus, isActiveJobStatus s.toStr = (s == JobStatus.training)) ∧
    isActiveJobStatus "pending" = true ∧
    jobStatusStrings.contains "pending" = false ∧
    toastCheckStatus = "running" ∧
    jobStatusStrings.contains "running" = false ∧
    (launchedJob "j1" "" "t0").status = JobStatus.training ∧
    jobStatusStrings.contains launchedJobStatus = true := by
  refine ⟨?_, ?_, ?_, ?_, rfl, ?_, rfl, ?_⟩
  · intro j
    cases h : j.status <;> simp [JobStatus.toStr, jobStatusStrings]
  · intro s
    cases s <;> decide
  · decide
  · decide
  · decide
  · decide

/-- C5 counterexample: the useAgent SSE consumer has a branch for the
event type candidates_found, which is not among the eight contract event
types of the spec, and it has no branch for the contract types
constraint-conflict and error. -/
theorem sse_consumer_handles_noncontract_event :
    handledEventType "candidates_found" = true ∧
    specEventTypes.contains "candidates_found" = false ∧
    handledEventType "constraint-conflict" = false ∧
    handledEventType "error" = false := by
  decide

/-- C5 amended: the useAgent SSE consumer dispatches on exactly the seven
event types conversational_response, agent_thinking, workflow_step,
candidates_found, jobs_launched, recommendations_ready,
workflow_complete; any other event type leaves the stream accumulator
unchanged. -/
theorem sse_consumer_event_set_corrected :
    (∀ t : String, handledEventType t = true ↔ t ∈ consumerEventTypes) ∧
    (∀ (st : StreamAccum) (t : String) (d : SSEData),
        handledEventType t = false → handleSSEEvent st t d = st) := by
  constructor
  · intro t
    simp only [handledEventType, consumerEventTypes, Bool.or_eq_true, beq_iff_eq,
      List.mem_cons, List.not_mem_nil, or_false]
    tauto
  · intro st t d h
    simp only [handledEventType, Bool.or_eq_false_iff] at h
    obtain ⟨⟨⟨⟨⟨⟨h1, h2⟩, h3⟩, h4⟩, h5⟩, h6⟩, h7⟩ := h
    simp [handleSSEEvent, h1, h2, h3, h4, h5, h6, h7]

/-- C5 amended witness: the spec name completed is not a handled type,
and an event of that type leaves a concrete accumulator unchanged. -/
theorem sse_consumer_event_set_witness :
    handleSSEEvent ⟨"", [], []⟩ "completed" ⟨"", "", 0, [], [], "", ""⟩ = ⟨"", [], []⟩ :=
  sse_consumer_event_set_corrected.2 ⟨"", [], []⟩ "completed" ⟨"", "", 0, [], [], "", ""⟩
    (by decide)

/-- Helper: the Negotiator emits a conflict for an option exactly when
the option fails some constraint by more than the tolerance. -/
theorem conflictFor_isSome (tol : ℚ) (cs : List NamedConstraint) (opt : CandidateOption) :
    (conflictFor tol cs opt).isSome =
      cs.any (fun c => failsConstraint tol c (achievedOf opt c.name)) := by
  unfold conflictFor
  cases hf : cs.find? (fun c => failsConstraint tol c (achievedOf opt c.name)) with
  | none =>
      rw [List.find?_eq_none] at hf
      simp only [Option.isSome_none]
      symm
      rw [List.any_eq_false]
      exact hf
  | some c =>
      simp only [Option.isSome_some]
      symm
      rw [List.any_eq_true]
      have hp := List.find?_some hf
      exact ⟨c, List.mem_of_find?_eq_some hf, hp⟩

/-- Helper: one conflict per failing option — the conflicts list is as
long as the list of options that fail some constraint. -/
theorem negotiateConflicts_length (tol : ℚ) (cs : List NamedConstraint) :
    ∀ opts : List CandidateOption,
      (negotiateConflicts tol cs opts).length =
        (opts.filter
          (fun o => cs.any (fun c => failsConstraint tol c (achievedOf o c.name)))).length := by
  intro opts
  induction opts with
  | nil => rfl
  | cons o rest ih =>
      have hsome := conflictFor_isSome tol cs o
      unfold negotiateConflicts at ih ⊢
      rw [List.filterMap_cons, List.filter_cons]
      cases hc : conflictFor tol cs o with
      | none =>
          rw [hc] at hsome
          simp only [Option.isSome_none] at hsome
          rw [if_neg (by rw [← hsome]; simp)]
          exact ih
      | some conf =>
          rw [hc] at hsome
          simp only [Option.isSome_some] at hsome
          rw [if_pos (by rw [← hsome])]
          simp only [List.length_cons]
          rw [ih]

/-- C6 counterexample: the Conflict interface local to
ConstraintNegotiation.tsx has no gap field (and the agent-types Conflict
names its third field achievable, not achieved), so the dialog conflicts
do not carry the four claimed fields. -/
theorem dialog_conflict_missing_gap_field :
    dialogConflictFields.contains "gap" = false ∧
    specConflictFields.contains "gap" = true ∧
    agentConflictFields.contains "achieved" = false ∧
    agentConflictFields.contains "achievable" = true := by
  decide

/-- C6 amended: the Negotiator (modelled from the spec) emits one
conflict for every option failing some constraint by more than the
tolerance (domain default 10%), each carrying constraint, required,
achievable and gap = required - achievable; the agent-types Conflict
carries exactly these four fields (named achievable, not achieved),
while the dialog-local Conflict carries only constraint, required and
achievable, with no gap field. -/
theorem negotiator_conflict_fields_corrected :
    defaultTolerance = 1 / 10 ∧
    agentConflictFields = ["constraint", "required", "achievable", "gap"] ∧
    dialogConflictFields = ["constraint", "required", "achievable"] ∧
    (∀ (tol : ℚ) (cs : List NamedConstraint) (opts : List CandidateOption),
      (negotiateConflicts tol cs opts).length =
        (opts.filter
          (fun o => cs.any (fun c => failsConstraint tol c (achievedOf o c.name)))).length) ∧
    (∀ (tol : ℚ) (cs : List NamedConstraint) (opt : CandidateOption) (conf : AgentConflict),
      conflictFor tol cs opt = some conf →
        ∃ r a : ℚ, conf.required = Sum.inl r ∧ conf.achievable = Sum.inl a ∧
          conf.gap = r - a ∧ failsConstraint tol ⟨conf.constraint, r⟩ a = true) := by
  refine ⟨rfl, rfl, rfl, negotiateConflicts_length, ?_⟩
  intro tol cs opt conf h
  unfold conflictFor at h
  cases hf : cs.find? (fun c => failsConstraint tol c (achievedOf opt c.name)) with
  | none => rw [hf] at h; exact absurd h (by simp)
  | some c =>
      rw [hf] at h
      have hconf := Option.some.inj h
      have hfails := List.find?_some hf
      refine ⟨c.required, achievedOf opt c.name, ?_, ?_, ?_, ?_⟩
      · rw [← hconf]
      · rw [← hconf]
      · rw [← hconf]
      · rw [← hconf]
        exact hfails

/-- C6 amended witness: constraint min_f1 with required 90 against an
option achieving 70 (a 22% miss, beyond the 10% tolerance) yields a
conflict whose gap is required minus achievable. -/
theorem negotiator_conflict_fields_witness :
    ∃ r a : ℚ,
      (⟨"min_f1", Sum.inl 90, Sum.inl 70, 20⟩ : AgentConflict).required = Sum.inl r ∧
      (⟨"min_f1", Sum.inl 90, Sum.inl 70, 20⟩ : AgentConflict).achievable = Sum.inl a ∧
      (⟨"min_f1", Sum.inl 90, Sum.inl 70, 20⟩ : AgentConflict).gap = r - a ∧
      failsConstraint defaultTolerance ⟨"min_f1", r⟩ a = true :=
  negotiator_conflict_fields_corrected.2.2.2.2 defaultTolerance
    [⟨"min_f1", 90⟩] ⟨"opt1", [("min_f1", 70)]⟩
    ⟨"min_f1", Sum.inl 90, Sum.inl 70, 20⟩
    (by norm_num [conflictFor, achievedOf, failsConstraint, defaultTolerance, List.find?])

/-- Helper: inserting into a cost-ordered list keeps the list a
permutation of pushing in front. -/
theorem insertByCost_perm (a : AltWithCost) (l : List AltWithCost) :
    (insertByCost a l).Perm (a :: l) := by
  induction l with
  | nil => exact List.Perm.refl _
  | cons b rest ih =>
      unfold insertByCost
      by_cases hc : a.cost ≤ b.cost
      · rw [if_pos hc]
      · rw [if_neg hc]
        exact (ih.cons b).trans (List.Perm.swap a b rest)

/-- Helper: insertion keeps the ascending-cost ordering. -/
theorem insertByCost_pairwise (a : AltWithCost) (l : List AltWithCost)
    (hl : List.Pairwise (fun x y => x.cost ≤ y.cost) l) :
    List.Pairwise (fun x y => x.cost ≤ y.cost) (insertByCost a l) := by
  induction l with
  | nil => simp [insertByCost]
  | cons b rest ih =>
      rw [List.pairwise_cons] at hl
      obtain ⟨hb, hrest⟩ := hl
      unfold insertByCost
      by_cases hc : a.cost ≤ b.cost
      · rw [if_pos hc]
        refine List.pairwise_cons.mpr ⟨?_, List.pairwise_cons.mpr ⟨hb, hrest⟩⟩
        intro x hx
        rcases List.mem_cons.mp hx with rfl | hx2
        · exact hc
        · exact le_trans hc (hb x hx2)
      · rw [if_neg hc]
        refine List.pairwise_cons.mpr ⟨?_, ih hrest⟩
        intro x hx
        have hx2 : x ∈ a :: rest := (insertByCost_perm a rest).mem_iff.mp hx
        rcases List.mem_cons.mp hx2 with rfl | hx3
        · exact le_of_not_le hc
        · exact hb x hx3

/-- Helper: the ranked alternatives are a permutation of the input. -/
theorem rankAlternatives_perm (l : List AltWithCost) :
    (rankAlternatives l).Perm l := by
  induction l with
  | nil => exact List.Perm.refl _
  | cons a rest ih =>
      exact ((insertByCost_perm a (rankAlternatives rest)).trans (ih.cons a))

/-- Helper: the ranked alternatives are ordered by ascending cost. -/
theorem rankAlternatives_sorted (l : List AltWithCost) :
    List.Pairwise (fun x y => x.cost ≤ y.cost) (rankAlternatives l) := by
  induction l with
  | nil => simp [rankAlternatives]
  | cons a rest ih => exact insertByCost_pairwise a (rankAlternatives rest) ih

/-- Helper: the dialog badge of the card at position i of a map that
started at index idx is rendered exactly when idx + i is 0. -/
theorem renderAlternativesFrom_badge (l : List DialogAlternative) :
    ∀ (idx i : ℕ) (hi : i < (renderAlternativesFrom idx l).length),
      ((renderAlternativesFrom idx l).get ⟨i, hi⟩).recommendedBadge = (idx + i == 0) := by
  induction l with
  | nil => intro idx i hi; simp [renderAlternativesFrom] at hi
  | cons a rest ih =>
      intro idx i hi
      cases i with
      | zero => simp [renderAlternativesFrom]
      | succ n =>
          have hn : n < (renderAlternativesFrom (idx + 1) rest).length := by
            simpa [renderAlternativesFrom] using Nat.lt_of_succ_lt_succ hi
          have := ih (idx + 1) n hn
          simp only [renderAlternativesFrom, List.get_cons_succ]
          rw [this]
          congr 1
          omega

/-- C7: ranking (modelled from the spec) orders the alternatives by
ascending cost without losing or inventing entries, and the dialog
renders the Recommended badge exactly on the alternative at index 0 —
for a non-empty negotiation result the first, cheapest alternative and
no other is flagged. -/
theorem alternatives_ranked_and_first_recommended
    (alts : List AltWithCost) (h : alts ≠ []) :
    List.Pairwise (fun x y => x.cost ≤ y.cost) (rankAlternatives alts) ∧
    (rankAlternatives alts).Perm alts ∧
    renderAlternatives ((rankAlternatives alts).map toDialogAlternative) ≠ [] ∧
    (∀ (i : ℕ)
        (hi : i < (renderAlternatives ((rankAlternatives alts).map toDialogAlternative)).length),
      ((renderAlternatives ((rankAlternatives alts).map toDialogAlternative)).get
          ⟨i, hi⟩).recommendedBadge = (i == 0)) := by
  have hperm := rankAlternatives_perm alts
  have hne : rankAlternatives alts ≠ [] := by
    intro hnil
    exact h (hnil ▸ hperm).symm.eq_nil
  refine ⟨rankAlternatives_sorted alts, hperm, ?_, ?_⟩
  · cases hr : rankAlternatives alts with
    | nil => exact absurd hr hne
    | cons x xs => simp [renderAlternatives, renderAlternativesFrom, hr]
  · intro i hi
    have := renderAlternativesFrom_badge
      ((rankAlternatives alts).map toDialogAlternative) 0 i hi
    simpa [renderAlternatives] using this

/-- C7 witness: two alternatives with costs 5 and 2 are ranked cheaper
first, and only the card at index 0 gets the Recommended badge. -/
theorem alternatives_ranked_witness :
    List.Pairwise (fun x y => x.cost ≤ y.cost)
      (rankAlternatives [⟨"full", "d1", "t1", 5⟩, ⟨"spot", "d2", "t2", 2⟩]) ∧
    ((renderAlternatives ((rankAlternatives
        [⟨"full", "d1", "t1", 5⟩, ⟨"spot", "d2", "t2", 2⟩]).map toDialogAlternative)).get
      ⟨0, by decide⟩).recommendedBadge = (0 == 0) ∧
    ((renderAlternatives ((rankAlternatives
        [⟨"full", "d1", "t1", 5⟩, ⟨"spot", "d2", "t2", 2⟩]).map toDialogAlternative)).get
      ⟨1, by decide⟩).recommendedBadge = (1 == 0) :=
  ⟨(alternatives_ranked_and_first_recommended
      [⟨"full", "d1", "t1", 5⟩, ⟨"spot", "d2", "t2", 2⟩] (by simp)).1,
    (alternatives_ranked_and_first_recommended
      [⟨"full", "d1", "t1", 5⟩, ⟨"spot", "d2", "t2", 2⟩] (by simp)).2.2.2 0 (by decide),
    (alternatives_ranked_and_first_recommended
      [⟨"full", "d1", "t1", 5⟩, ⟨"spot", "d2", "t2", 2⟩] (by simp)).2.2.2 1 (by decide)⟩

/-- C8: when isSending is already true, sendMessage returns immediately
with the hook state unchanged (messages, isTyping, activeJobs, sessionId
and the guard itself untouched) and issues no chat-stream request; and
no single sendMessage call ever issues more than one request. -/
theorem send_message_guarded_when_sending :
    (∀ (st : AgentHookState) (text now : String) (resp : FetchResponse),
        st.isSending = true → sendMessage st text now resp = (st, 0)) ∧
    (∀ (st : AgentHookState) (text now : String) (resp : FetchResponse),
        (sendMessage st text now resp).2 ≤ 1) := by
  constructor
  · intro st text now resp h
    simp [sendMessage, h]
  · intro st text now resp
    rcases hs : st.isSending <;> rcases ho : resp.ok <;>
      simp [sendMessage, hs, ho]

/-- C8 witness: a concrete in-flight hook state is returned unchanged
with zero requests issued. -/
theorem send_message_guarded_witness :
    sendMessage ⟨[], false, [], "session-1", true⟩ "hi" "t0" ⟨true, []⟩ =
      (⟨[], false, [], "session-1", true⟩, 0) :=
  send_message_guarded_when_sending.1 ⟨[], false, [], "session-1", true⟩ "hi" "t0"
    ⟨true, []⟩ rfl

/-- C3: a paid action proceeds only when both the global and the session
scope pass canAfford; after any successful paid action spent <= limit
holds in both scopes, and each scope reports remaining = limit - spent,
which stays non-negative. -/
theorem budget_gate_effective :
    (∀ (st : BudgetState) (amount : ℚ) (stNext : BudgetState),
        paidAction st amount = some stNext →
          stNext.globalScope.spent ≤ stNext.globalScope.limit ∧
          stNext.sessionScope.spent ≤ stNext.sessionScope.limit ∧
          (∀ id ty : String,
            (budgetInfoOf id ty stNext.globalScope).remaining =
              stNext.globalScope.limit - stNext.globalScope.spent ∧
            0 ≤ (budgetInfoOf id ty stNext.globalScope).remaining ∧
            (budgetInfoOf id ty stNext.sessionScope).remaining =
              stNext.sessionScope.limit - stNext.sessionScope.spent ∧
            0 ≤ (budgetInfoOf id ty stNext.sessionScope).remaining)) ∧
    (∀ (st : BudgetState) (amount : ℚ),
        (paidAction st amount).isSome =
          (canAfford st.globalScope amount && canAfford st.sessionScope amount)) := by
  constructor
  · intro st amount stNext h
    unfold paidAction at h
    rcases hg : canAfford st.globalScope amount <;>
      rcases hs : canAfford st.sessionScope amount <;>
        rw [hg, hs] at h <;> simp at h
    have hg2 : st.globalScope.spent + amount ≤ st.globalScope.limit := by
      have := hg
      simp only [canAfford, decide_eq_true_eq] at this
      exact this
    have hs2 : st.sessionScope.spent + amount ≤ st.sessionScope.limit := by
      have := hs
      simp only [canAfford, decide_eq_true_eq] at this
      exact this
    rw [← h]
    refine ⟨hg2, hs2, ?_⟩
    intro id ty
    refine ⟨rfl, ?_, rfl, ?_⟩
    · simp only [budgetInfoOf, recordSpend]
      linarith
    · simp only [budgetInfoOf, recordSpend]
      linarith
  · intro st amount
    unfold paidAction
    rcases hg : canAfford st.globalScope amount <;>
      rcases hs : canAfford st.sessionScope amount <;> simp

/-- C3 witness: with global limit 100 and session limit 10, both at
spend 0, a paid action of 5 passes both gates and leaves the session
scope at spent 5 <= limit 10 with remaining 5 >= 0. -/
theorem budget_gate_effective_witness :
    (budgetInfoOf "s1" "session" (⟨10, 5⟩ : BudgetScope)).remaining =
        (10 : ℚ) - 5 ∧
      (0 : ℚ) ≤ (budgetInfoOf "s1" "session" (⟨10, 5⟩ : BudgetScope)).remaining :=
  ⟨((budget_gate_effective.1 ⟨⟨100, 0⟩, ⟨10, 0⟩⟩ 5 ⟨⟨100, 5⟩, ⟨10, 5⟩⟩
      (by norm_num [paidAction, canAfford, recordSpend])).2.2 "s1" "session").2.2.1,
    ((budget_gate_effective.1 ⟨⟨100, 0⟩, ⟨10, 0⟩⟩ 5 ⟨⟨100, 5⟩, ⟨10, 5⟩⟩
      (by norm_num [paidAction, canAfford, recordSpend])).2.2 "s1" "session").2.2.2⟩

/-- Helper: the loop never runs past iter + rem cycles. -/
theorem reactLoopGo_le (think : ℕ → Bool) (rem : ℕ) :
    ∀ iter : ℕ, (reactLoopGo think rem iter).iterations ≤ iter + rem := by
  induction rem with
  | zero => intro iter; simp [reactLoopGo]
  | succ n ih =>
      intro iter
      unfold reactLoopGo
      by_cases h : think iter = true
      · rw [if_pos h]
        simp
      · rw [if_neg h]
        have := ih (iter + 1)
        omega

/-- Helper: with no completion signal ever, the loop consumes the whole
budget and ends with the partial-results message. -/
theorem reactLoopGo_never (think : ℕ → Bool) (hthink : ∀ i, think i = false) (rem : ℕ) :
    ∀ iter : ℕ, reactLoopGo think rem iter = ⟨iter + rem, true⟩ := by
  induction rem with
  | zero => intro iter; simp [reactLoopGo]
  | succ n ih =>
      intro iter
      unfold reactLoopGo
      rw [if_neg (by rw [hthink iter]; exact Bool.false_ne_true)]
      rw [ih (iter + 1)]
      congr 1
      omega

/-- C1: every user turn runs at most MAX_REACT_ITERATIONS (10)
think-act-observe cycles, for every completion oracle — including an
adversarial one that never signals completion, in which case the turn
ends after exactly 10 cycles with the partial-results message. -/
theorem react_turn_iteration_bound (think : ℕ → Bool) :
    (reactTurn think).iterations ≤ MAX_REACT_ITERATIONS ∧
    ((∀ i, think i = false) → reactTurn think = ⟨MAX_REACT_ITERATIONS, true⟩) := by
  constructor
  · have := reactLoopGo_le think MAX_REACT_ITERATIONS 0
    simpa [reactTurn] using this
  · intro h
    have := reactLoopGo_never think h MAX_REACT_ITERATIONS 0
    simpa [reactTurn] using this

/-- C1 witness: the oracle that never signals completion ends the turn
after exactly 10 iterations with the partial-results message. -/
theorem react_turn_bounded_witness :
    reactTurn (fun _ => false) = ⟨MAX_REACT_ITERATIONS, true⟩ :=
  (react_turn_iteration_bound (fun _ => false)).2 (fun _ => rfl)

/-- C2: fallback mode is selected exactly when the configured gateway_id
equals gtw-local-fallback, once at construction; for every tool name and
parameter bag both strategies return the same ToolResult, listTools
agrees across modes, and every client invocation equals the direct
semantics — so the mode is invisible to callers. -/
theorem gateway_strategies_interchangeable :
    (∀ gid : String, (mkGatewayClient gid).fallbackMode = (gid == fallbackGatewayId)) ∧
    (mkGatewayClient fallbackGatewayId).fallbackMode = true ∧
    (mkGatewayClient "gtw-xyz123").fallbackMode = false ∧
    (∀ (backend : Backend) (toolName : String) (params : List (String × String)),
        invokeRouted backend toolName params = invokeDirect backend toolName params) ∧
    (∀ (gid1 gid2 : String) (backend : Backend) (toolName : String)
        (params : List (String × String)),
      (mkGatewayClient gid1).invoke backend toolName params =
        (mkGatewayClient gid2).invoke backend toolName params) ∧
    (∀ gid1 gid2 : String,
      (mkGatewayClient gid1).listTools = (mkGatewayClient gid2).listTools) ∧
    (∀ (c : GatewayClient) (backend : Backend) (toolName : String)
        (params : List (String × String)),
      c.invoke backend toolName params = invokeDirect backend toolName params) := by
  have hinv : ∀ (c : GatewayClient) (backend : Backend) (toolName : String)
      (params : List (String × String)),
      c.invoke backend toolName params = invokeDirect backend toolName params := by
    intro c backend toolName params
    unfold GatewayClient.invoke
    rcases c.fallbackMode <;> simp [invokeRouted, invokeDirect]
  refine ⟨fun _ => rfl, by decide, by decide, fun _ _ _ => rfl, ?_, ?_, hinv⟩
  · intro gid1 gid2 backend toolName params
    rw [hinv, hinv]
  · intro gid1 gid2
    unfold GatewayClient.listTools
    rcases (mkGatewayClient gid1).fallbackMode <;>
      rcases (mkGatewayClient gid2).fallbackMode <;> rfl

end AgenticAIOps
